import Mathlib

/-!
Shallow embedding of `lib/ansible/modules/command.py` (the Ansible `command`
module): the `main` procedure together with its helper `check_command`, and a
faithful model of CPython `shlex.split` (posix mode with `whitespace_split`),
which `main` uses to tokenize a free-form command string.

External effects are modelled by an explicit `World`:
  - `glob` takes the current working directory as an extra argument, because
    `glob.glob` in the source resolves relative patterns against the process
    working directory, which `os.chdir` may have changed;
  - `run` abstracts `module.run_command` (exit code, stdout, stderr - the
    source captures bytes; we model the byte strings as `String`);
  - `toBytesErr` / `chdirErr` model the two exception sites of the chdir block;
  - `startTime` / `endTime` model the two `datetime.datetime.now()` calls.

`module.exit_json` / `module.fail_json` terminate the module; they are
modelled as the `Outcome` of the run.  An uncaught `ValueError` from
`shlex.split` is modelled as `Outcome.exception`.
-/

namespace CommandModule

/-- Python truthiness of an optional string parameter (`None` and `''` are falsy). -/
def strTruthy : Option String → Bool
  | none => false
  | some s => !(s == "")

/-- Python truthiness of an optional list parameter (`None` and `[]` are falsy). -/
def listTruthy : Option (List String) → Bool
  | none => false
  | some l => !l.isEmpty

/-- ASCII whitespace as stripped by Python `str.strip()` / split by `str.split()`. -/
def isPyWhitespace (c : Char) : Bool :=
  c == ' ' || c == '\t' || c == '\n' || c == '\r' || c == '\x0b' || c == '\x0c'

/-- `s.strip() == ''` in Python: every character is whitespace. -/
def pyBlank (s : String) : Bool := s.data.all isPyWhitespace

/-- `not args or args.strip() == ''` from line 290 of the source
(`None` short-circuits before `.strip()` is called). -/
def pyBlankOpt : Option String → Bool
  | none => true
  | some s => pyBlank s

/-- Helper for `pySplitWS`: walk the characters, accumulating the current
word (reversed) and emitting it at whitespace. -/
def wsSplit : List Char → List Char → List String
  | [], acc => if acc.isEmpty then [] else [String.mk acc.reverse]
  | c :: cs, acc =>
      if isPyWhitespace c then
        if acc.isEmpty then wsSplit cs [] else String.mk acc.reverse :: wsSplit cs []
      else wsSplit cs (c :: acc)

/-- `str.split()` with no argument: split on whitespace runs, dropping empties. -/
def pySplitWS (s : String) : List String := wsSplit s.data []

/-- The single-quote character (codepoint 39). -/
def squoteChar : Char := Char.ofNat 39

/-- The double-quote character (codepoint 34). -/
def dquoteChar : Char := Char.ofNat 34

/-- The backslash character (codepoint 92). -/
def backslashChar : Char := Char.ofNat 92

/-- `shlex` whitespace: `' \t\r\n'`. -/
def isShlexWS (c : Char) : Bool :=
  c == ' ' || c == '\t' || c == '\r' || c == '\n'

/-- States of the CPython `shlex.read_token` automaton in posix mode with
`whitespace_split = True` and no punctuation or comment characters:
between tokens (`' '`), inside a word (`'a'`), inside single or double quotes,
or just after a backslash (with `escapedstate` `'a'` or `'"'`). -/
inductive LexState
  | space
  | word
  | squote
  | dquote
  | escWord
  | escDquote
deriving DecidableEq

/-- The flattened CPython `shlex.split` loop (posix, `whitespace_split`): walks
the characters with the `LexState` automaton, an accumulating token (kept
reversed) and the `quoted` flag; emits a token at whitespace or end of input.
Unbalanced quotes and a trailing backslash raise `ValueError` in the source. -/
def shlexRun : List Char → LexState → List Char → Bool → Except String (List String)
  | [], .space, _, _ => .ok []
  | [], .word, tok, quoted =>
      if tok ≠ [] ∨ quoted then .ok [String.mk tok.reverse] else .ok []
  | [], .squote, _, _ => .error "No closing quotation"
  | [], .dquote, _, _ => .error "No closing quotation"
  | [], .escWord, _, _ => .error "No escaped character"
  | [], .escDquote, _, _ => .error "No escaped character"
  | c :: rest, .space, tok, quoted =>
      if isShlexWS c then shlexRun rest .space [] false
      else if c = backslashChar then shlexRun rest .escWord tok quoted
      else if c = squoteChar then shlexRun rest .squote tok true
      else if c = dquoteChar then shlexRun rest .dquote tok true
      else shlexRun rest .word [c] quoted
  | c :: rest, .word, tok, quoted =>
      if isShlexWS c then
        if tok ≠ [] ∨ quoted then
          match shlexRun rest .space [] false with
          | .error e => .error e
          | .ok ts => .ok (String.mk tok.reverse :: ts)
        else shlexRun rest .space [] false
      else if c = squoteChar then shlexRun rest .squote tok true
      else if c = dquoteChar then shlexRun rest .dquote tok true
      else if c = backslashChar then shlexRun rest .escWord tok quoted
      else shlexRun rest .word (c :: tok) quoted
  | c :: rest, .squote, tok, quoted =>
      if c = squoteChar then shlexRun rest .word tok quoted
      else shlexRun rest .squote (c :: tok) quoted
  | c :: rest, .dquote, tok, quoted =>
      if c = dquoteChar then shlexRun rest .word tok quoted
      else if c = backslashChar then shlexRun rest .escDquote tok quoted
      else shlexRun rest .dquote (c :: tok) quoted
  | c :: rest, .escWord, tok, quoted =>
      shlexRun rest .word (c :: tok) quoted
  | c :: rest, .escDquote, tok, quoted =>
      if c = backslashChar ∨ c = dquoteChar then shlexRun rest .dquote (c :: tok) quoted
      else shlexRun rest .dquote (c :: backslashChar :: tok) quoted

/-- `shlex.split(s)` (posix word splitting, as called at line 297 of the source). -/
def shlexSplit (s : String) : Except String (List String) :=
  shlexRun s.data .space [] false

instance {ε α : Type} [DecidableEq ε] [DecidableEq α] : DecidableEq (Except ε α)
  | .error x, .error y => if h : x = y then .isTrue (by rw [h]) else .isFalse (by simp [h])
  | .error _, .ok _ => .isFalse (by simp)
  | .ok _, .error _ => .isFalse (by simp)
  | .ok x, .ok y => if h : x = y then .isTrue (by rw [h]) else .isFalse (by simp [h])

/-- The resolved command: a plain string (shell mode) or an argv list, as the
Python variable `args` after lines 296-303. -/
inductive Cmd
  | str (s : String)
  | list (l : List String)
deriving DecidableEq

/-- The module parameters of `argument_spec` (lines 257-273), already
type-checked by `AnsibleModule` as in the source's contract. -/
structure Params where
  usesShell : Bool
  chdir : Option String
  executable : Option String
  rawParams : Option String
  argv : Option (List String)
  creates : Option String
  removes : Option String
  warn : Bool
  stdin : Option String
  stdinAddNewline : Bool
  stripEmptyEnds : Bool

/-- The environment of one invocation: check mode, working directory state,
glob results (as a function of the current working directory, since
`glob.glob` resolves relative patterns against it), process execution results,
chdir failure modes and the two wall-clock readings. -/
structure World where
  checkMode : Bool
  initialCwd : String
  abspath : String → String
  toBytesErr : String → Option String
  chdirErr : String → Option String
  glob : String → String → List String
  run : Cmd → Int × String × String
  startTime : Nat
  endTime : Nat

/-- The keyword arguments handed to `exit_json` / `fail_json`; a field is
`none` when the corresponding key is absent from that call in the source. -/
structure ResultDict where
  cmd : Option Cmd := none
  stdout : Option String := none
  stderr : Option String := none
  rc : Option Int := none
  start : Option Nat := none
  endT : Option Nat := none
  delta : Option Int := none
  changed : Option Bool := none
  msg : Option String := none
  skipped : Option Bool := none
deriving DecidableEq

/-- How the module run terminates: `module.exit_json(...)`,
`module.fail_json(...)`, or an uncaught exception. -/
inductive Outcome
  | exitJson (r : ResultDict)
  | failJson (r : ResultDict)
  | exception (e : String)
deriving DecidableEq

/-- Observable result of one `main` invocation: the terminating call, the
warnings emitted via `module.warn`, whether `module.run_command` spawned a
process, the process working directory on exit, and the trace of
`glob.glob` calls as (working directory, pattern) pairs. -/
structure MainOut where
  outcome : Outcome
  warnings : List String
  spawned : Bool
  finalCwd : String
  globCalls : List (String × String)
deriving DecidableEq

/-- The `arguments` table of `check_command` (lines 218-220). -/
def argumentsTable : List (String × String) :=
  [("chown", "owner"), ("chmod", "mode"), ("chgrp", "group"),
   ("ln", "state=link"), ("mkdir", "state=directory"),
   ("rmdir", "state=absent"), ("rm", "state=absent"), ("touch", "state=touch")]

/-- The `commands` table of `check_command` (lines 221-225). -/
def commandsTable : List (String × String) :=
  [("curl", "get_url or uri"), ("wget", "get_url or uri"),
   ("svn", "subversion"), ("service", "service"),
   ("mount", "mount"), ("rpm", "yum, dnf or zypper"), ("yum", "yum"), ("apt-get", "apt"),
   ("tar", "unarchive"), ("unzip", "unarchive"), ("sed", "replace, lineinfile or template"),
   ("dnf", "dnf"), ("zypper", "zypper")]

/-- The `become` list of `check_command` (line 226). -/
def becomeTable : List String :=
  ["sudo", "su", "pbrun", "pfexec", "runas", "pmrun", "machinectl"]

/-- `os.path.basename`: the part after the last slash. -/
def basename (s : String) : String :=
  String.mk ((s.data.reverse.takeWhile (fun c => c ≠ '/')).reverse)

/-- First element of the command line (`commandline[0]` for a list,
`commandline.split()[0]` for a string; total with `""` for the
empty case, which `main` cannot reach). -/
def firstWord : Cmd → String
  | .list l => l.headD ""
  | .str s => (pySplitWS s).headD ""

/-- The `disable_suffix` text of `check_command` (lines 233-235) with `{mod}`
substituted. -/
def disableSuffix (mod : String) : String :=
  "If you need to use command because " ++ mod ++ " is insufficient you can add" ++
  " \x27warn: false\x27 to this command task or set \x27command_warnings=False\x27 in" ++
  " ansible.cfg to get rid of this message."

/-- `check_command(module, commandline)` (lines 217-250): the list of warnings
emitted, in order (arguments table, commands table, become list). -/
def check_command (commandline : Cmd) : List String :=
  let command := basename (firstWord commandline)
  (match argumentsTable.lookup command with
   | some subcmd =>
       ["Consider using the file module with " ++ subcmd ++
        " rather than running \x27" ++ command ++ "\x27.  " ++ disableSuffix "file"]
   | none => []) ++
  (match commandsTable.lookup command with
   | some mod =>
       ["Consider using the " ++ mod ++ " module rather than running \x27" ++
        command ++ "\x27.  " ++ disableSuffix mod]
   | none => []) ++
  (if command ∈ becomeTable then
     ["Consider using \x27become\x27, \x27become_method\x27, and \x27become_user\x27 rather than running " ++ command]
   else [])

/-- The warning of lines 286-288 when `executable` is supplied without shell mode. -/
def execWarnMsg (e : String) : String :=
  "As of Ansible 2.4, the parameter \x27executable\x27 is no longer supported with the \x27command\x27 module. Not using \x27" ++ e ++ "\x27."

/-- Warnings emitted before argument validation (`if not shell and executable`). -/
def execWarns (p : Params) : List String :=
  if !p.usesShell && strTruthy p.executable then [execWarnMsg (p.executable.getD "")] else []

/-- Outcome of resolving the two command forms (lines 290-303). -/
inductive ResolveOut
  | noCommand
  | bothGiven
  | lexError (e : String)
  | ok (c : Cmd)
deriving DecidableEq

/-- Lines 290-303: validation of the two mutually exclusive command forms,
tokenization of a free-form string via `shlex.split` when not in shell mode,
and the `args = args or argv` fallback.  (The `to_native` coercion of
line 302-303 is the identity here since all elements are already strings.) -/
def resolveCmd (p : Params) : ResolveOut :=
  if pyBlankOpt p.rawParams && !(listTruthy p.argv) then .noCommand
  else if strTruthy p.rawParams && listTruthy p.argv then .bothGiven
  else if !p.usesShell && strTruthy p.rawParams then
    match shlexSplit (p.rawParams.getD "") with
    | .error e => .lexError e
    | .ok ts => if ts.isEmpty then .ok (.list (p.argv.getD [])) else .ok (.list ts)
  else if strTruthy p.rawParams then .ok (.str (p.rawParams.getD ""))
  else .ok (.list (p.argv.getD []))

/-- Outcome of the chdir block (lines 305-314). -/
inductive ChdirOut
  | resolveFail (e : String)
  | enterFail (e : String)
  | ok (cwd : String)
deriving DecidableEq

/-- Lines 305-314: if `chdir` is supplied, resolve it to an absolute path
(`to_bytes` may raise `ValueError`) and change the process working directory
(`os.chdir` may raise); otherwise the working directory is unchanged. -/
def applyChdir (p : Params) (w : World) : ChdirOut :=
  match p.chdir with
  | none => .ok w.initialCwd
  | some d =>
    let ad := w.abspath d
    match w.toBytesErr ad with
    | some e => .resolveFail e
    | none =>
      match w.chdirErr ad with
      | some e => .enterFail e
      | none => .ok ad

/-- The fixed check-mode stdout/stderr placeholder (line 349). -/
def checkModePlaceholder : String := "Command would have run if not in check mode"

/-- `bytes.rstrip(b"\r\n")` (lines 357-358): drop trailing CR/LF characters. -/
def isCRLF (c : Char) : Bool := c == '\r' || c == '\n'

/-- `out.rstrip(b"\r\n")`: remove the maximal trailing run of CR/LF characters. -/
def rstripCRLF (s : String) : String :=
  String.mk ((s.data.reverse.dropWhile isCRLF).reverse)

/-- Lines 353-374: capture end time, optionally strip trailing newlines, build
the result dict with `changed=True`, and `fail_json` on a non-zero exit code
(`msg='non-zero return code'` plus every field of the result) or `exit_json`. -/
def finishPhase (p : Params) (args : Cmd) (warns : List String) (cwd : String)
    (calls : List (String × String)) (spawned : Bool) (rc : Int) (out err : String)
    (startd endd : Nat) : MainOut :=
  let out2 := if p.stripEmptyEnds then rstripCRLF out else out
  let err2 := if p.stripEmptyEnds then rstripCRLF err else err
  let result : ResultDict :=
    { cmd := some args, stdout := some out2, stderr := some err2, rc := some rc,
      start := some startd, endT := some endd,
      delta := some ((endd : Int) - (startd : Int)), changed := some true }
  if rc ≠ 0 then
    { outcome := .failJson { result with msg := some "non-zero return code" },
      warnings := warns, spawned := spawned, finalCwd := cwd, globCalls := calls }
  else
    { outcome := .exitJson result,
      warnings := warns, spawned := spawned, finalCwd := cwd, globCalls := calls }

/-- Lines 340-351: the optional `check_command` advisory step (which the source
runs only after both gates have passed), then execution (`run_command`) when
not in check mode, the placeholder result in check mode with a gate pattern
set, or the check-mode skip exit. -/
def runPhase (p : Params) (w : World) (args : Cmd) (warns0 : List String)
    (cwd : String) (calls : List (String × String)) : MainOut :=
  let warns := if p.warn then warns0 ++ check_command args else warns0
  if !w.checkMode then
    let r := w.run args
    finishPhase p args warns cwd calls true r.1 r.2.1 r.2.2 w.startTime w.endTime
  else if p.creates.isSome || p.removes.isSome then
    finishPhase p args warns cwd calls false 0 checkModePlaceholder checkModePlaceholder
      w.startTime w.endTime
  else
    { outcome := .exitJson { msg := some "skipped, running in check mode", skipped := some true },
      warnings := warns, spawned := false, finalCwd := cwd, globCalls := calls }

/-- Lines 328-338: the `removes` gate - skip when the glob yields no path. -/
def removesGate (p : Params) (w : World) (args : Cmd) (warns0 : List String)
    (cwd : String) (calls : List (String × String)) : MainOut :=
  match p.removes with
  | some r =>
    if w.glob cwd r = [] then
      { outcome := .exitJson
          { cmd := some args, stdout := some ("skipped, since " ++ r ++ " does not exist"),
            changed := some false, rc := some 0 },
        warnings := warns0, spawned := false, finalCwd := cwd,
        globCalls := calls ++ [(cwd, r)] }
    else runPhase p w args warns0 cwd (calls ++ [(cwd, r)])
  | none => runPhase p w args warns0 cwd calls

/-- Lines 316-326: the `creates` gate - skip when the glob yields a path. -/
def createsGate (p : Params) (w : World) (args : Cmd) (warns0 : List String)
    (cwd : String) : MainOut :=
  match p.creates with
  | some c =>
    if w.glob cwd c ≠ [] then
      { outcome := .exitJson
          { cmd := some args, stdout := some ("skipped, since " ++ c ++ " exists"),
            changed := some false, rc := some 0 },
        warnings := warns0, spawned := false, finalCwd := cwd, globCalls := [(cwd, c)] }
    else removesGate p w args warns0 cwd [(cwd, c)]
  | none => removesGate p w args warns0 cwd []

/-- The `main()` procedure (lines 253-374): executable warning, argument
validation and resolution, chdir, the creates/removes gates, the advisory
step, execution or check-mode simulation, and result construction. -/
def main (p : Params) (w : World) : MainOut :=
  let warns0 := execWarns p
  match resolveCmd p with
  | .noCommand =>
    { outcome := .failJson { rc := some 256, msg := some "no command given" },
      warnings := warns0, spawned := false, finalCwd := w.initialCwd, globCalls := [] }
  | .bothGiven =>
    { outcome := .failJson { rc := some 256, msg := some "only command or argv can be given, not both" },
      warnings := warns0, spawned := false, finalCwd := w.initialCwd, globCalls := [] }
  | .lexError e =>
    { outcome := .exception e,
      warnings := warns0, spawned := false, finalCwd := w.initialCwd, globCalls := [] }
  | .ok args =>
    match applyChdir p w with
    | .resolveFail e =>
      { outcome := .failJson { msg := some ("Unable to use supplied chdir: " ++ e) },
        warnings := warns0, spawned := false, finalCwd := w.initialCwd, globCalls := [] }
    | .enterFail e =>
      { outcome := .failJson { msg := some ("Unable to change directory before execution: " ++ e) },
        warnings := warns0, spawned := false, finalCwd := w.initialCwd, globCalls := [] }
    | .ok cwd => createsGate p w args warns0 cwd

/-- A payload carrying all of the fields `cmd`, `stdout`, `stderr`, `rc`,
`start`, `end`, `delta` and `changed`. -/
def hasAllCoreFields (r : ResultDict) : Prop :=
  r.cmd.isSome ∧ r.stdout.isSome ∧ r.stderr.isSome ∧ r.rc.isSome ∧
  r.start.isSome ∧ r.endT.isSome ∧ r.delta.isSome ∧ r.changed.isSome

/-- A fixed parameter set used to instantiate the theorems on concrete inputs. -/
def baseParams : Params :=
  { usesShell := false, chdir := none, executable := none,
    rawParams := some "/bin/tool run", argv := none, creates := none, removes := none,
    warn := false, stdin := none, stdinAddNewline := true, stripEmptyEnds := true }

/-- A fixed environment: no chdir failures, the pattern `"present"` globs to
one path and every other pattern to none, and a successful process run. -/
def baseWorld : World :=
  { checkMode := false, initialCwd := "/work",
    abspath := fun d => "/abs/" ++ d,
    toBytesErr := fun _ => none, chdirErr := fun _ => none,
    glob := fun _ pat => if pat = "present" then ["present"] else [],
    run := fun _ => (0, "out\n", "err"), startTime := 3, endTime := 7 }

/-- Like `baseWorld` but the spawned process fails with exit code 2. -/
def failWorld : World :=
  { baseWorld with run := fun _ => (2, "partial out\n", "boom\r\n") }

/-- Like `baseWorld` but in check mode. -/
def checkWorld : World :=
  { baseWorld with checkMode := true }

theorem finishPhase_frame (p : Params) (args : Cmd) (warns : List String) (cwd : String)
    (calls : List (String × String)) (sp : Bool) (rc : Int) (out err : String)
    (startd endd : Nat) :
    (finishPhase p args warns cwd calls sp rc out err startd endd).globCalls = calls ∧
    (finishPhase p args warns cwd calls sp rc out err startd endd).finalCwd = cwd ∧
    (finishPhase p args warns cwd calls sp rc out err startd endd).warnings = warns ∧
    (finishPhase p args warns cwd calls sp rc out err startd endd).spawned = sp := by
  simp only [finishPhase]
  split <;> simp

theorem runPhase_frame (p : Params) (w : World) (args : Cmd) (warns0 : List String)
    (cwd : String) (calls : List (String × String)) :
    (runPhase p w args warns0 cwd calls).globCalls = calls ∧
    (runPhase p w args warns0 cwd calls).finalCwd = cwd := by
  simp only [runPhase]
  split
  · exact ⟨(finishPhase_frame ..).1, (finishPhase_frame ..).2.1⟩
  · split
    · exact ⟨(finishPhase_frame ..).1, (finishPhase_frame ..).2.1⟩
    · simp

theorem mem_append_pair (q : String × String) (calls : List (String × String))
    (cwd r : String) (h : q ∈ calls ++ [(cwd, r)]) : q ∈ calls ∨ q.1 = cwd := by
  simp only [List.mem_append, List.mem_singleton] at h
  rcases h with h | h
  · exact Or.inl h
  · exact Or.inr (by rw [h])

theorem removesGate_frame (p : Params) (w : World) (args : Cmd) (warns0 : List String)
    (cwd : String) (calls : List (String × String)) :
    (∀ q ∈ (removesGate p w args warns0 cwd calls).globCalls, q ∈ calls ∨ q.1 = cwd) ∧
    (removesGate p w args warns0 cwd calls).finalCwd = cwd := by
  cases hr : p.removes with
  | none =>
    have he : removesGate p w args warns0 cwd calls = runPhase p w args warns0 cwd calls := by
      simp [removesGate, hr]
    rw [he, (runPhase_frame ..).1, (runPhase_frame ..).2]
    exact ⟨fun q hq => Or.inl hq, rfl⟩
  | some r =>
    simp only [removesGate, hr]
    by_cases hg : w.glob cwd r = []
    · rw [if_pos hg]
      exact ⟨fun q hq => mem_append_pair q calls cwd r hq, rfl⟩
    · rw [if_neg hg, (runPhase_frame ..).1, (runPhase_frame ..).2]
      exact ⟨fun q hq => mem_append_pair q calls cwd r hq, rfl⟩

theorem createsGate_frame (p : Params) (w : World) (args : Cmd) (warns0 : List String)
    (cwd : String) :
    (∀ q ∈ (createsGate p w args warns0 cwd).globCalls, q.1 = cwd) ∧
    (createsGate p w args warns0 cwd).finalCwd = cwd := by
  have hRem : ∀ calls : List (String × String), (∀ q ∈ calls, q.1 = cwd) →
      (∀ q ∈ (removesGate p w args warns0 cwd calls).globCalls, q.1 = cwd) ∧
      (removesGate p w args warns0 cwd calls).finalCwd = cwd := by
    intro calls hcalls
    refine ⟨?_, (removesGate_frame ..).2⟩
    intro q hq
    rcases (removesGate_frame ..).1 q hq with h | h
    · exact hcalls q h
    · exact h
  cases hc : p.creates with
  | none =>
    have he : createsGate p w args warns0 cwd = removesGate p w args warns0 cwd [] := by
      simp [createsGate, hc]
    rw [he]
    exact hRem [] (by simp)
  | some c =>
    simp only [createsGate, hc]
    by_cases hg : w.glob cwd c = []
    · rw [if_neg (fun h => h hg)]
      exact hRem [(cwd, c)] (by simp)
    · rw [if_pos hg]
      refine ⟨?_, rfl⟩
      intro q hq
      simp only [List.mem_singleton] at hq
      rw [hq]

theorem main_ok_eq_createsGate (p : Params) (w : World) (args : Cmd) (cwd : String)
    (hres : resolveCmd p = .ok args) (hch : applyChdir p w = .ok cwd) :
    main p w = createsGate p w args (execWarns p) cwd := by
  simp [main, hres, hch]

theorem main_gates_pass (p : Params) (w : World) (args : Cmd) (cwd : String)
    (hres : resolveCmd p = .ok args) (hch : applyChdir p w = .ok cwd)
    (hcr : ∀ c, p.creates = some c → w.glob cwd c = [])
    (hrm : ∀ r, p.removes = some r → w.glob cwd r ≠ []) :
    ∃ calls, main p w = runPhase p w args (execWarns p) cwd calls := by
  rw [main_ok_eq_createsGate p w args cwd hres hch]
  cases hc : p.creates with
  | none =>
    cases hr : p.removes with
    | none => exact ⟨[], by simp [createsGate, removesGate, hc, hr]⟩
    | some r => exact ⟨[(cwd, r)], by simp [createsGate, removesGate, hc, hr, hrm r hr]⟩
  | some c =>
    cases hr : p.removes with
    | none => exact ⟨[(cwd, c)], by simp [createsGate, removesGate, hc, hr, hcr c hc]⟩
    | some r =>
      exact ⟨[(cwd, c), (cwd, r)], by simp [createsGate, removesGate, hc, hr, hcr c hc, hrm r hr]⟩

/-- C1: if `createsPattern` is set and its glob match yields at least one
existing path, the module short-circuits before spawning any process and
returns `changed=false`, exit code 0 and stdout `skipped, since <pattern>
exists`. -/
theorem C1_creates_gate_skips (p : Params) (w : World) (args : Cmd) (cwd c : String)
    (hres : resolveCmd p = .ok args) (hch : applyChdir p w = .ok cwd)
    (hc : p.creates = some c) (hg : w.glob cwd c ≠ []) :
    (main p w).outcome = .exitJson
      { cmd := some args, stdout := some ("skipped, since " ++ c ++ " exists"),
        changed := some false, rc := some 0 } ∧
    (main p w).spawned = false := by
  rw [main_ok_eq_createsGate p w args cwd hres hch]
  simp [createsGate, hc, hg]

/-- Witness for C1 at a concrete invocation. -/
theorem C1_witness :
    (main { baseParams with creates := some "present" } baseWorld).outcome = .exitJson
      { cmd := some (.list ["/bin/tool", "run"]), stdout := some "skipped, since present exists",
        changed := some false, rc := some 0 } ∧
    (main { baseParams with creates := some "present" } baseWorld).spawned = false := by
  have h := C1_creates_gate_skips { baseParams with creates := some "present" } baseWorld
    (.list ["/bin/tool", "run"]) "/work" "present" (by decide) (by decide) (by decide) (by decide)
  simpa using h

/-- C2: when the free-form string is absent, empty or whitespace-only and the
argument list is absent, the module fails with rc 256 and message `no command
given` without executing anything; when both a non-empty free-form string and
a non-empty argument list are supplied, it fails with rc 256 without executing
anything. -/
theorem C2_invalid_arguments (p : Params) (w : World) :
    (pyBlankOpt p.rawParams = true → listTruthy p.argv = false →
      (main p w).outcome = .failJson { rc := some 256, msg := some "no command given" } ∧
      (main p w).spawned = false) ∧
    (strTruthy p.rawParams = true → listTruthy p.argv = true →
      (main p w).outcome = .failJson
        { rc := some 256, msg := some "only command or argv can be given, not both" } ∧
      (main p w).spawned = false) := by
  constructor
  · intro h1 h2
    simp [main, resolveCmd, h1, h2]
  · intro h1 h2
    simp [main, resolveCmd, h1, h2]

/-- Witness for C2 at two concrete invocations. -/
theorem C2_witness :
    ((main { baseParams with rawParams := some "   " } baseWorld).outcome =
      .failJson { rc := some 256, msg := some "no command given" } ∧
     (main { baseParams with rawParams := some "   " } baseWorld).spawned = false) ∧
    ((main { baseParams with argv := some ["ls"] } baseWorld).outcome =
      .failJson { rc := some 256, msg := some "only command or argv can be given, not both" } ∧
     (main { baseParams with argv := some ["ls"] } baseWorld).spawned = false) := by
  constructor
  · exact (C2_invalid_arguments { baseParams with rawParams := some "   " } baseWorld).1
      (by decide) (by decide)
  · exact (C2_invalid_arguments { baseParams with argv := some ["ls"] } baseWorld).2
      (by decide) (by decide)

theorem rstrip_placeholder : rstripCRLF checkModePlaceholder = checkModePlaceholder := by decide

/-- C5: if `removesPattern` is set, its glob match yields zero paths and the
creates gate did not fire, the module short-circuits with `changed=false`,
exit code 0 and no process spawned; and whenever `creates` matches, the
creates short-circuit wins (it is evaluated first), whatever `removes` says. -/
theorem C5_removes_gate_skips (p : Params) (w : World) (args : Cmd) (cwd : String)
    (hres : resolveCmd p = .ok args) (hch : applyChdir p w = .ok cwd) :
    (∀ r, (∀ c, p.creates = some c → w.glob cwd c = []) →
      p.removes = some r → w.glob cwd r = [] →
      (main p w).outcome = .exitJson
        { cmd := some args, stdout := some ("skipped, since " ++ r ++ " does not exist"),
          changed := some false, rc := some 0 } ∧
      (main p w).spawned = false) ∧
    (∀ c, p.creates = some c → w.glob cwd c ≠ [] →
      (main p w).outcome = .exitJson
        { cmd := some args, stdout := some ("skipped, since " ++ c ++ " exists"),
          changed := some false, rc := some 0 } ∧
      (main p w).spawned = false) := by
  rw [main_ok_eq_createsGate p w args cwd hres hch]
  constructor
  · intro r hcr hr hgr
    cases hc : p.creates with
    | none => simp [createsGate, hc, removesGate, hr, hgr]
    | some c => simp [createsGate, hc, hcr c hc, removesGate, hr, hgr]
  · intro c hc hg
    simp [createsGate, hc, hg]

/-- Witness for C5 at two concrete invocations (removes-skip; creates wins). -/
theorem C5_witness :
    ((main { baseParams with removes := some "gone" } baseWorld).outcome = .exitJson
      { cmd := some (.list ["/bin/tool", "run"]),
        stdout := some "skipped, since gone does not exist",
        changed := some false, rc := some 0 } ∧
     (main { baseParams with removes := some "gone" } baseWorld).spawned = false) ∧
    ((main { baseParams with creates := some "present", removes := some "gone" } baseWorld).outcome
       = .exitJson
      { cmd := some (.list ["/bin/tool", "run"]), stdout := some "skipped, since present exists",
        changed := some false, rc := some 0 } ∧
     (main { baseParams with creates := some "present", removes := some "gone" } baseWorld).spawned
       = false) := by
  constructor
  · exact (C5_removes_gate_skips { baseParams with removes := some "gone" } baseWorld
      (.list ["/bin/tool", "run"]) "/work" (by decide) (by decide)).1 "gone"
      (by intro c hc; simp [baseParams] at hc) (by decide) (by decide)
  · exact (C5_removes_gate_skips
      { baseParams with creates := some "present", removes := some "gone" } baseWorld
      (.list ["/bin/tool", "run"]) "/work" (by decide) (by decide)).2 "present"
      (by decide) (by decide)

/-- C3: in check mode with no pattern set, the module exits with a
`skipped, running in check mode` result, spawns no process and does not set
`changed=true`; with a pattern set whose gate does not short-circuit, no real
process is spawned and a placeholder outcome with exit code 0, the fixed
placeholder stdout and `changed=true` is returned. -/
theorem C3_check_mode (p : Params) (w : World) (args : Cmd) (cwd : String)
    (hres : resolveCmd p = .ok args) (hch : applyChdir p w = .ok cwd)
    (hcm : w.checkMode = true) :
    (p.creates = none → p.removes = none →
      (main p w).outcome = .exitJson
        { msg := some "skipped, running in check mode", skipped := some true } ∧
      (main p w).spawned = false) ∧
    ((p.creates.isSome ∨ p.removes.isSome) →
      (∀ c, p.creates = some c → w.glob cwd c = []) →
      (∀ r, p.removes = some r → w.glob cwd r ≠ []) →
      (main p w).outcome = .exitJson
        { cmd := some args, stdout := some checkModePlaceholder,
          stderr := some checkModePlaceholder, rc := some 0,
          start := some w.startTime, endT := some w.endTime,
          delta := some ((w.endTime : Int) - (w.startTime : Int)), changed := some true } ∧
      (main p w).spawned = false) := by
  constructor
  · intro hc hr
    rw [main_ok_eq_createsGate p w args cwd hres hch]
    simp [createsGate, hc, removesGate, hr, runPhase, hcm]
  · intro hsome hcr hrm
    obtain ⟨calls, hm⟩ := main_gates_pass p w args cwd hres hch hcr hrm
    rw [hm]
    have hsome2 : (p.creates.isSome || p.removes.isSome) = true := by
      rcases hsome with h | h <;> simp [h]
    simp [runPhase, hcm, hsome2, finishPhase, rstrip_placeholder]

/-- Witness for C3 at two concrete check-mode invocations. -/
theorem C3_witness :
    ((main baseParams checkWorld).outcome = .exitJson
      { msg := some "skipped, running in check mode", skipped := some true } ∧
     (main baseParams checkWorld).spawned = false) ∧
    ((main { baseParams with creates := some "nothing" } checkWorld).outcome = .exitJson
      { cmd := some (.list ["/bin/tool", "run"]), stdout := some checkModePlaceholder,
        stderr := some checkModePlaceholder, rc := some 0,
        start := some 3, endT := some 7, delta := some 4, changed := some true } ∧
     (main { baseParams with creates := some "nothing" } checkWorld).spawned = false) := by
  constructor
  · exact (C3_check_mode baseParams checkWorld (.list ["/bin/tool", "run"]) "/work"
      (by decide) (by decide) (by decide)).1 (by decide) (by decide)
  · have h := (C3_check_mode { baseParams with creates := some "nothing" } checkWorld
      (.list ["/bin/tool", "run"]) "/work" (by decide) (by decide) (by decide)).2
      (by left; decide) (by intro c hc; simp at hc; rw [← hc]; decide)
      (by intro r hr; simp [baseParams] at hr)
    simpa using h

/-- C4: every real (non-simulated, non-skipped) execution sets `changed=true`
regardless of the exit code; exit code zero yields a success payload, a
non-zero exit code yields a failure payload with message `non-zero return
code` carrying exactly the same cmd, stdout, stderr, rc, timing and changed
fields as the success payload would. -/
theorem C4_real_execution (p : Params) (w : World) (args : Cmd) (cwd : String)
    (rc : Int) (out err : String)
    (hres : resolveCmd p = .ok args) (hch : applyChdir p w = .ok cwd)
    (hcr : ∀ c, p.creates = some c → w.glob cwd c = [])
    (hrm : ∀ r, p.removes = some r → w.glob cwd r ≠ [])
    (hcm : w.checkMode = false) (hrun : w.run args = (rc, out, err)) :
    (main p w).spawned = true ∧
    (main p w).outcome =
      (if rc = 0 then
        Outcome.exitJson
          { cmd := some args,
            stdout := some (if p.stripEmptyEnds then rstripCRLF out else out),
            stderr := some (if p.stripEmptyEnds then rstripCRLF err else err),
            rc := some rc, start := some w.startTime, endT := some w.endTime,
            delta := some ((w.endTime : Int) - (w.startTime : Int)), changed := some true }
      else
        Outcome.failJson
          { cmd := some args,
            stdout := some (if p.stripEmptyEnds then rstripCRLF out else out),
            stderr := some (if p.stripEmptyEnds then rstripCRLF err else err),
            rc := some rc, start := some w.startTime, endT := some w.endTime,
            delta := some ((w.endTime : Int) - (w.startTime : Int)), changed := some true,
            msg := some "non-zero return code" }) := by
  obtain ⟨calls, hm⟩ := main_gates_pass p w args cwd hres hch hcr hrm
  rw [hm]
  by_cases h0 : rc = 0
  · subst h0
    simp [runPhase, hcm, hrun, finishPhase]
  · simp [runPhase, hcm, hrun, finishPhase, h0]

/-- Witness for C4 at two concrete invocations (exit code 0 and exit code 2). -/
theorem C4_witness :
    ((main baseParams baseWorld).spawned = true ∧
     (main baseParams baseWorld).outcome = .exitJson
      { cmd := some (.list ["/bin/tool", "run"]), stdout := some "out", stderr := some "err",
        rc := some 0, start := some 3, endT := some 7, delta := some 4,
        changed := some true }) ∧
    ((main baseParams failWorld).spawned = true ∧
     (main baseParams failWorld).outcome = .failJson
      { cmd := some (.list ["/bin/tool", "run"]), stdout := some "partial out",
        stderr := some "boom", rc := some 2, start := some 3, endT := some 7, delta := some 4,
        changed := some true, msg := some "non-zero return code" }) := by
  constructor
  · have h := C4_real_execution baseParams baseWorld (.list ["/bin/tool", "run"]) "/work"
      0 "out\n" "err" (by decide) (by decide) (by intro c hc; simp [baseParams] at hc)
      (by intro r hr; simp [baseParams] at hr) (by decide) (by decide)
    simpa using h
  · have h := C4_real_execution baseParams failWorld (.list ["/bin/tool", "run"]) "/work"
      2 "partial out\n" "boom\r\n" (by decide) (by decide) (by intro c hc; simp [baseParams] at hc)
      (by intro r hr; simp [baseParams] at hr) (by decide) (by decide)
    simpa using h

theorem runPhase_warnings (p : Params) (w : World) (args : Cmd) (warns0 : List String)
    (cwd : String) (calls : List (String × String)) :
    (runPhase p w args warns0 cwd calls).warnings =
      if p.warn then warns0 ++ check_command args else warns0 := by
  simp only [runPhase]
  split
  · exact (finishPhase_frame ..).2.2.1
  · split
    · exact (finishPhase_frame ..).2.2.1
    · rfl

/-- Parameters exhibiting the C6 counterexample: advisory warnings enabled, a
command that matches an advisory table, and a matching creates pattern. -/
def warnSkipParams : Params :=
  { baseParams with rawParams := some "chmod +x f", creates := some "present", warn := true }

/-- C6 counterexample: with `warn=true`, a command (`chmod`) that would
trigger an advisory, and a matching `creates` pattern, the gate short-circuit
fires and NO advisory warning is emitted - the advisory step in the source
runs after the idempotence gate, not before. -/
theorem C6_counterexample :
    warnSkipParams.warn = true ∧
    check_command (Cmd.list ["chmod", "+x", "f"]) ≠ [] ∧
    resolveCmd warnSkipParams = .ok (.list ["chmod", "+x", "f"]) ∧
    (main warnSkipParams baseWorld).outcome = .exitJson
      { cmd := some (.list ["chmod", "+x", "f"]), stdout := some "skipped, since present exists",
        changed := some false, rc := some 0 } ∧
    (main warnSkipParams baseWorld).warnings = [] := by decide

/-- C6 amended: the advisory step runs after the idempotence gate (the control
flow is resolve, gate, advise, execute-or-simulate): when the creates or
removes gate short-circuits, no advisory warning is emitted; when both gates
pass and `warn` is set, the advisories are emitted on the
execute-or-simulate path. -/
theorem C6_amended_advise_after_gate (p : Params) (w : World) (args : Cmd) (cwd : String)
    (hres : resolveCmd p = .ok args) (hch : applyChdir p w = .ok cwd) :
    (∀ c, p.creates = some c → w.glob cwd c ≠ [] → (main p w).warnings = execWarns p) ∧
    (∀ r, (∀ c, p.creates = some c → w.glob cwd c = []) → p.removes = some r →
       w.glob cwd r = [] → (main p w).warnings = execWarns p) ∧
    (p.warn = true → (∀ c, p.creates = some c → w.glob cwd c = []) →
       (∀ r, p.removes = some r → w.glob cwd r ≠ []) →
       (main p w).warnings = execWarns p ++ check_command args) := by
  refine ⟨?_, ?_, ?_⟩
  · intro c hc hg
    rw [main_ok_eq_createsGate p w args cwd hres hch]
    simp [createsGate, hc, hg]
  · intro r hcr hr hgr
    rw [main_ok_eq_createsGate p w args cwd hres hch]
    cases hc : p.creates with
    | none => simp [createsGate, hc, removesGate, hr, hgr]
    | some c => simp [createsGate, hc, hcr c hc, removesGate, hr, hgr]
  · intro hwarn hcr hrm
    obtain ⟨calls, hm⟩ := main_gates_pass p w args cwd hres hch hcr hrm
    rw [hm, runPhase_warnings, if_pos hwarn]

/-- Witness for the C6 amended theorem: with both gates passing and warnings
enabled, the `chmod` advisory is emitted. -/
theorem C6_amended_witness :
    (main { baseParams with rawParams := some "chmod +x f", warn := true } baseWorld).warnings =
      check_command (Cmd.list ["chmod", "+x", "f"]) := by
  have h := (C6_amended_advise_after_gate
    { baseParams with rawParams := some "chmod +x f", warn := true } baseWorld
    (.list ["chmod", "+x", "f"]) "/work" (by decide) (by decide)).2.2 (by decide)
    (by intro c hc; simp [baseParams] at hc) (by intro r hr; simp [baseParams] at hr)
  simpa [execWarns, baseParams] using h

/-- C7: with `useShell` false, a free-form string is tokenized by POSIX shell
word splitting into the argument sequence (quoting honored, no expansion);
the example `cat \x27my file.txt\x27` resolves to `["cat", "my file.txt"]`;
an argument-list input bypasses tokenization entirely. -/
theorem C7_tokenization :
    (∀ (p : Params) (s : String) (ts : List String),
       p.usesShell = false → p.rawParams = some s → pyBlank s = false →
       listTruthy p.argv = false → shlexSplit s = .ok ts → ts ≠ [] →
       resolveCmd p = .ok (.list ts)) ∧
    shlexSplit "cat \x27my file.txt\x27" = .ok ["cat", "my file.txt"] ∧
    (∀ (p : Params) (l : List String), p.rawParams = none → p.argv = some l → l ≠ [] →
       resolveCmd p = .ok (.list l)) := by
  refine ⟨?_, by decide, ?_⟩
  · intro p s ts hshell hraw hblank hargv hlex hts
    have hs : s ≠ "" := by
      intro h
      rw [h] at hblank
      exact absurd hblank (by decide)
    simp [resolveCmd, hraw, hblank, hargv, hshell, hlex, pyBlankOpt, strTruthy, hs, hts]
  · intro p l hraw hargv hl
    simp [resolveCmd, hraw, hargv, pyBlankOpt, strTruthy, listTruthy, hl]

/-- Witness for C7: the example string resolves through `resolveCmd`, and a
pre-split argv passes through unchanged. -/
theorem C7_witness :
    resolveCmd { baseParams with rawParams := some "cat \x27my file.txt\x27" } =
      .ok (.list ["cat", "my file.txt"]) ∧
    resolveCmd { baseParams with rawParams := none, argv := some ["cat", "my file.txt"] } =
      .ok (.list ["cat", "my file.txt"]) := by
  constructor
  · exact C7_tokenization.1 _ "cat \x27my file.txt\x27" ["cat", "my file.txt"]
      (by decide) (by decide) (by decide) (by decide) (by decide) (by decide)
  · exact C7_tokenization.2.2 _ ["cat", "my file.txt"] (by decide) (by decide) (by decide)

theorem head_dropWhile_not (p : Char → Bool) :
    ∀ (l : List Char) (c : Char), (l.dropWhile p).head? = some c → p c = false := by
  intro l
  induction l with
  | nil => intro c h; simp at h
  | cons a as ih =>
    intro c h
    rw [List.dropWhile_cons] at h
    by_cases hp : p a
    · rw [if_pos hp] at h
      exact ih c h
    · rw [if_neg hp] at h
      simp only [List.head?_cons, Option.some.injEq] at h
      rw [← h]
      exact Bool.eq_false_iff.mpr hp

/-- C8: with `strip_empty_ends` true, post-processing removes exactly the
trailing carriage-return/line-feed characters from stdout and stderr and
leaves all interior content unchanged; `a\nb\n\n` becomes `a\nb`. -/
theorem C8_strip_trailing_newlines :
    rstripCRLF "a\nb\n\n" = "a\nb" ∧
    (∀ s : String, ∃ t : List Char,
       s.data = (rstripCRLF s).data ++ t ∧
       (∀ c ∈ t, isCRLF c = true) ∧
       (∀ c, ((rstripCRLF s).data).getLast? = some c → isCRLF c = false)) ∧
    (∀ (p : Params) (args : Cmd) (warns : List String) (cwd : String)
       (calls : List (String × String)) (sp : Bool) (rc : Int) (out err : String)
       (startd endd : Nat), p.stripEmptyEnds = true →
       ∃ r, ((finishPhase p args warns cwd calls sp rc out err startd endd).outcome =
               .exitJson r ∨
             (finishPhase p args warns cwd calls sp rc out err startd endd).outcome =
               .failJson r) ∧
            r.stdout = some (rstripCRLF out) ∧ r.stderr = some (rstripCRLF err)) := by
  refine ⟨by decide, ?_, ?_⟩
  · intro s
    refine ⟨(s.data.reverse.takeWhile isCRLF).reverse, ?_, ?_, ?_⟩
    · have key : s.data.reverse.takeWhile isCRLF ++ s.data.reverse.dropWhile isCRLF
          = s.data.reverse := List.takeWhile_append_dropWhile isCRLF s.data.reverse
      calc s.data = s.data.reverse.reverse := (List.reverse_reverse _).symm
        _ = (s.data.reverse.takeWhile isCRLF ++ s.data.reverse.dropWhile isCRLF).reverse := by
            rw [key]
        _ = (s.data.reverse.dropWhile isCRLF).reverse ++
            (s.data.reverse.takeWhile isCRLF).reverse := List.reverse_append ..
        _ = (rstripCRLF s).data ++ (s.data.reverse.takeWhile isCRLF).reverse := rfl
    · intro c hc
      rw [List.mem_reverse] at hc
      exact List.mem_takeWhile_imp hc
    · intro c hc
      have : ((s.data.reverse.dropWhile isCRLF).reverse).getLast? = some c := hc
      rw [List.getLast?_reverse] at this
      exact head_dropWhile_not isCRLF _ c this
  · intro p args warns cwd calls sp rc out err startd endd hstrip
    by_cases h0 : rc = 0
    · subst h0
      refine
        ⟨{ cmd := some args, stdout := some (rstripCRLF out),
           stderr := some (rstripCRLF err), rc := some 0, start := some startd,
           endT := some endd, delta := some ((endd : Int) - (startd : Int)),
           changed := some true }, Or.inl ?_, rfl, rfl⟩
      simp [finishPhase, hstrip]
    · refine
        ⟨{ cmd := some args, stdout := some (rstripCRLF out),
           stderr := some (rstripCRLF err), rc := some rc, start := some startd,
           endT := some endd, delta := some ((endd : Int) - (startd : Int)),
           changed := some true, msg := some "non-zero return code" },
         Or.inr ?_, rfl, rfl⟩
      simp [finishPhase, hstrip, h0]

/-- Witness for C8: the strip decomposition at a concrete string, and the
post-processing equation of `finishPhase` at concrete inputs. -/
theorem C8_witness :
    (∃ t : List Char,
       ("x\r\n\n" : String).data = (rstripCRLF "x\r\n\n").data ++ t ∧
       (∀ c ∈ t, isCRLF c = true) ∧
       (∀ c, ((rstripCRLF "x\r\n\n").data).getLast? = some c → isCRLF c = false)) ∧
    (∃ r, ((finishPhase baseParams (.list ["x"]) [] "/w" [] true 0 "a\n" "b\r\n" 1 2).outcome =
             .exitJson r ∨
           (finishPhase baseParams (.list ["x"]) [] "/w" [] true 0 "a\n" "b\r\n" 1 2).outcome =
             .failJson r) ∧
          r.stdout = some (rstripCRLF "a\n") ∧ r.stderr = some (rstripCRLF "b\r\n")) := by
  constructor
  · exact C8_strip_trailing_newlines.2.1 "x\r\n\n"
  · exact C8_strip_trailing_newlines.2.2 baseParams (.list ["x"]) [] "/w" [] true 0 "a\n" "b\r\n"
      1 2 (by decide)

/-- Parameters exhibiting the C9 counterexample: a removes short-circuit. -/
def skipPayloadParams : Params := { baseParams with removes := some "absent2" }

/-- C9 counterexample: the payload of a removes short-circuit carries only
`cmd`, `stdout`, `rc` and `changed` - the `stderr`, `start`, `end` and `delta`
fields are absent, so not every non-error payload carries all eight fields. -/
theorem C9_counterexample :
    (main skipPayloadParams baseWorld).outcome = .exitJson
      { cmd := some (.list ["/bin/tool", "run"]),
        stdout := some "skipped, since absent2 does not exist",
        stderr := none, rc := some 0, start := none, endT := none, delta := none,
        changed := some false, msg := none, skipped := none } := by decide

theorem finishPhase_core_fields (p : Params) (args : Cmd) (warns : List String) (cwd : String)
    (calls : List (String × String)) (sp : Bool) (rc : Int) (out err : String)
    (startd endd : Nat) :
    ∃ r, ((finishPhase p args warns cwd calls sp rc out err startd endd).outcome = .exitJson r ∨
          (finishPhase p args warns cwd calls sp rc out err startd endd).outcome = .failJson r) ∧
         hasAllCoreFields r := by
  by_cases h0 : rc = 0
  · subst h0
    refine
      ⟨{ cmd := some args, stdout := some (if p.stripEmptyEnds then rstripCRLF out else out),
         stderr := some (if p.stripEmptyEnds then rstripCRLF err else err), rc := some 0,
         start := some startd, endT := some endd,
         delta := some ((endd : Int) - (startd : Int)), changed := some true },
       Or.inl ?_, ?_⟩
    · simp [finishPhase]
    · simp [hasAllCoreFields]
  · refine
      ⟨{ cmd := some args, stdout := some (if p.stripEmptyEnds then rstripCRLF out else out),
         stderr := some (if p.stripEmptyEnds then rstripCRLF err else err), rc := some rc,
         start := some startd, endT := some endd,
         delta := some ((endd : Int) - (startd : Int)), changed := some true,
         msg := some "non-zero return code" },
       Or.inr ?_, ?_⟩
    · simp [finishPhase, h0]
    · simp [hasAllCoreFields]

/-- C9 amended: the payloads of the full-execution and check-mode-simulation
paths carry all of `cmd`, `stdout`, `stderr`, `rc`, `start`, `end`, `delta`
and `changed`; the creates/removes short-circuit payloads carry only `cmd`,
`stdout`, `rc` and `changed`. -/
theorem C9_amended_payload_fields (p : Params) (w : World) (args : Cmd) (cwd : String)
    (hres : resolveCmd p = .ok args) (hch : applyChdir p w = .ok cwd) :
    (∀ c, p.creates = some c → w.glob cwd c ≠ [] →
       ∃ r, (main p w).outcome = .exitJson r ∧ r.cmd.isSome ∧ r.stdout.isSome ∧
            r.rc = some 0 ∧ r.changed = some false ∧
            r.stderr = none ∧ r.start = none ∧ r.endT = none ∧ r.delta = none) ∧
    (∀ r2, (∀ c, p.creates = some c → w.glob cwd c = []) → p.removes = some r2 →
       w.glob cwd r2 = [] →
       ∃ r, (main p w).outcome = .exitJson r ∧ r.cmd.isSome ∧ r.stdout.isSome ∧
            r.rc = some 0 ∧ r.changed = some false ∧
            r.stderr = none ∧ r.start = none ∧ r.endT = none ∧ r.delta = none) ∧
    ((∀ c, p.creates = some c → w.glob cwd c = []) →
     (∀ r, p.removes = some r → w.glob cwd r ≠ []) →
     (w.checkMode = false ∨ p.creates.isSome ∨ p.removes.isSome) →
       ∃ r, ((main p w).outcome = .exitJson r ∨ (main p w).outcome = .failJson r) ∧
            hasAllCoreFields r) := by
  refine ⟨?_, ?_, ?_⟩
  · intro c hc hg
    refine
      ⟨{ cmd := some args, stdout := some ("skipped, since " ++ c ++ " exists"),
         changed := some false, rc := some 0 },
       ?_, by simp, by simp, rfl, rfl, rfl, rfl, rfl, rfl⟩
    rw [main_ok_eq_createsGate p w args cwd hres hch]
    simp [createsGate, hc, hg]
  · intro r2 hcr hr hgr
    refine
      ⟨{ cmd := some args, stdout := some ("skipped, since " ++ r2 ++ " does not exist"),
         changed := some false, rc := some 0 },
       ?_, by simp, by simp, rfl, rfl, rfl, rfl, rfl, rfl⟩
    rw [main_ok_eq_createsGate p w args cwd hres hch]
    cases hc : p.creates with
    | none => simp [createsGate, hc, removesGate, hr, hgr]
    | some c => simp [createsGate, hc, hcr c hc, removesGate, hr, hgr]
  · intro hcr hrm hmode
    obtain ⟨calls, hm⟩ := main_gates_pass p w args cwd hres hch hcr hrm
    rw [hm]
    rcases hmode with hcm | hsome
    · rcases hrw : w.run args with ⟨rc, out, err⟩
      have he : runPhase p w args (execWarns p) cwd calls =
          finishPhase p args
            (if p.warn then execWarns p ++ check_command args else execWarns p) cwd calls
            true rc out err w.startTime w.endTime := by
        simp [runPhase, hcm, hrw]
      rw [he]
      exact finishPhase_core_fields ..
    · by_cases hcm : w.checkMode
      · have hsome2 : (p.creates.isSome || p.removes.isSome) = true := by
          rcases hsome with h | h <;> simp [h]
        have he : runPhase p w args (execWarns p) cwd calls =
            finishPhase p args
              (if p.warn then execWarns p ++ check_command args else execWarns p) cwd calls
              false 0 checkModePlaceholder checkModePlaceholder w.startTime w.endTime := by
          simp [runPhase, hcm, hsome2]
        rw [he]
        exact finishPhase_core_fields ..
      · rcases hrw : w.run args with ⟨rc, out, err⟩
        have hcm2 : w.checkMode = false := by simpa using hcm
        have he : runPhase p w args (execWarns p) cwd calls =
            finishPhase p args
              (if p.warn then execWarns p ++ check_command args else execWarns p) cwd calls
              true rc out err w.startTime w.endTime := by
          simp [runPhase, hcm2, hrw]
        rw [he]
        exact finishPhase_core_fields ..

/-- Witness for the C9 amended theorem at two concrete invocations. -/
theorem C9_amended_witness :
    (∃ r, (main { baseParams with creates := some "present" } checkWorld).outcome =
            .exitJson r ∧ r.cmd.isSome ∧ r.stdout.isSome ∧
          r.rc = some 0 ∧ r.changed = some false ∧
          r.stderr = none ∧ r.start = none ∧ r.endT = none ∧ r.delta = none) ∧
    (∃ r, ((main baseParams baseWorld).outcome = .exitJson r ∨
           (main baseParams baseWorld).outcome = .failJson r) ∧ hasAllCoreFields r) := by
  constructor
  · exact (C9_amended_payload_fields { baseParams with creates := some "present" } checkWorld
      (.list ["/bin/tool", "run"]) "/work" (by decide) (by decide)).1 "present"
      (by decide) (by decide)
  · exact (C9_amended_payload_fields baseParams baseWorld
      (.list ["/bin/tool", "run"]) "/work" (by decide) (by decide)).2.2
      (by intro c hc; simp [baseParams] at hc) (by intro r hr; simp [baseParams] at hr)
      (Or.inl (by decide))

/-- C10: with a working directory supplied (and resolvable/enterable), the
directory change is applied before the creates/removes guards, every glob
evaluation in the run uses the new working directory, and the process working
directory remains the new one even when a gate short-circuits. -/
theorem C10_chdir_before_gates (p : Params) (w : World) (d : String) (args : Cmd) (cwd : String)
    (hd : p.chdir = some d) (hres : resolveCmd p = .ok args)
    (hch : applyChdir p w = .ok cwd) :
    cwd = w.abspath d ∧
    (∀ q ∈ (main p w).globCalls, q.1 = w.abspath d) ∧
    (main p w).finalCwd = w.abspath d := by
  have hcwd : cwd = w.abspath d := by
    simp only [applyChdir, hd] at hch
    cases hb : w.toBytesErr (w.abspath d) with
    | some e => rw [hb] at hch; simp at hch
    | none =>
      rw [hb] at hch
      cases hc : w.chdirErr (w.abspath d) with
      | some e => rw [hc] at hch; simp at hch
      | none =>
        rw [hc] at hch
        simp only [ChdirOut.ok.injEq] at hch
        exact hch.symm
  subst hcwd
  rw [main_ok_eq_createsGate p w args _ hres hch]
  exact ⟨rfl, (createsGate_frame ..).1, (createsGate_frame ..).2⟩

/-- Parameters exhibiting C10: a chdir together with a matching creates
pattern, so the gate short-circuits after the directory change. -/
def chdirParams : Params :=
  { baseParams with chdir := some "subdir", creates := some "present" }

/-- Witness for C10: the glob call of the creates gate uses the new absolute
working directory, and the final working directory is the new one although
the gate short-circuited. -/
theorem C10_witness :
    (main chdirParams baseWorld).finalCwd = baseWorld.abspath "subdir" ∧
    (main chdirParams baseWorld).globCalls = [("/abs/subdir", "present")] ∧
    baseWorld.initialCwd ≠ baseWorld.abspath "subdir" ∧
    (main chdirParams baseWorld).spawned = false := by
  refine ⟨(C10_chdir_before_gates chdirParams baseWorld "subdir" (.list ["/bin/tool", "run"])
    "/abs/subdir" (by decide) (by decide) (by decide)).2.2, by decide, by decide, by decide⟩

end CommandModule
